import Mathlib

/-!
Shallow embedding of the Base-chain trading engine.

The embedding covers the liquidity resolver (`checkLiquidityFast` in
src/lib/liquidity), the trade executor (`executeBuy`, `executeSell`,
`estimateGasWithBuffer` in src/lib/trading, `ensureApproval` in
src/lib/tokens), the key-custody layer (`encryptKey`, `decryptKey`,
`saveEncryptedKey`, `loadEncryptedKey`, `clearStoredKey`, `hasStoredKey`
in src/lib/wallet), the native-price cache (`fetchEthPrice` in
src/lib/prices), and the wallet session facade (`disconnect`, `unlock`
in the useWallet hook).

On-chain and browser effects are embedded by passing the environment
explicitly: each executor takes a world record holding the values the
JSON-RPC reads would return (an `Option` field is `none` when the call
throws), and returns the ordered list of external actions it performed
together with its result.  JavaScript `BigInt` arithmetic on token
amounts is embedded as `Nat` arithmetic (all the quantities involved are
non-negative); `Date.now()` timestamps are embedded as `Int` so that the
cache-age subtraction matches JS semantics exactly.
-/

namespace Engine

/-! ### Addresses and constants (src/lib/liquidity, src/lib/tokens) -/

def ZERO_ADDRESS : String := "0x0000000000000000000000000000000000000000"

def UNISWAP_V2_ROUTER : String := "0x4752ba5DBc23f44D87826276BF6Fd6b1C372aD24"

def AERODROME_ROUTER : String := "0xcF77a3Ba9A5CA399B7c97c74d54e5b1Beb874E43"

def UNISWAP_V3_ROUTER : String := "0x2626664c2603336E57B271c5C0b26F421741e481"

/-- `ethers.MaxUint256`. -/
def maxUint256 : Nat := 2 ^ 256 - 1

/-- `ethers.parseUnits("0.000001", "ether")`: the fixed minimum gas
reserve checked in `executeSell`, in wei. -/
def minGasNeeded : Nat := 10 ^ 12

/-! ### Liquidity resolver (`checkLiquidityFast`) -/

/-- The `LiquidityResult` interface of src/lib/liquidity.  Optional
fields are embedded as `Option`. -/
structure LiquidityResult where
  dex : String
  router : String
  pairAddress : String
  hasLiquidity : Bool
  fee : Option Nat
  isStable : Option Bool
deriving DecidableEq, Repr

/-- On-chain state as seen by `checkLiquidityFast`.  For each factory
read, `none` means the contract call threw (the code catches and
continues); `some a` is the returned address.  `v2WethBal` / `aeroWethBal`
are what `WETH.balanceOf(pair)` would return for the respective pair
(`none` again meaning the call throws).  `v3WethBal` is the on-chain WETH
balance of each V3 pool by fee tier; the code never reads it, but it is
part of the world so that the confirmed-liquidity property can be
stated. -/
structure LiqWorld where
  v2Pair : Option String
  v2WethBal : Option Nat
  aeroPair : Option String
  aeroWethBal : Option Nat
  v3Pool : Nat → Option String
  v3WethBal : Nat → Nat

/-- One V2-style try block: the probe succeeds with the pair address when
`getPair` returned a non-zero address and `WETH.balanceOf(pair)` returned
a strictly positive balance; a thrown call or a zero balance falls
through (`none`). -/
def pairHit (pair : Option String) (bal : Option Nat) : Option String :=
  match pair with
  | none => none
  | some p =>
    if p = ZERO_ADDRESS then none
    else
      match bal with
      | none => none
      | some b => if 0 < b then some p else none

/-- The V3 fee-tier loop: first tier whose `getPool` returns a non-zero
address (a thrown call is caught and the loop continues).  No balance
check is performed, mirroring the source. -/
def v3FirstPool (pools : Nat → Option String) : List Nat → Option (Nat × String)
  | [] => none
  | fee :: rest =>
    match pools fee with
    | none => v3FirstPool pools rest
    | some p => if p = ZERO_ADDRESS then v3FirstPool pools rest else some (fee, p)

/-- The fee tiers tried by `checkLiquidityFast`, in source order. -/
def feeTiers : List Nat := [3000, 10000, 500]

/-- `checkLiquidityFast` of src/lib/liquidity: Uniswap V2, then
Aerodrome, then the Uniswap V3 tier loop, else the empty route. -/
def checkLiquidityFast (w : LiqWorld) : LiquidityResult :=
  match pairHit w.v2Pair w.v2WethBal with
  | some p => ⟨"Uniswap V2", UNISWAP_V2_ROUTER, p, true, none, none⟩
  | none =>
    match pairHit w.aeroPair w.aeroWethBal with
    | some p => ⟨"Aerodrome", AERODROME_ROUTER, p, true, none, none⟩
    | none =>
      match v3FirstPool w.v3Pool feeTiers with
      | some fp => ⟨"Uniswap V3", UNISWAP_V3_ROUTER, fp.2, true, some fp.1, none⟩
      | none => ⟨"None", "", "", false, none, none⟩

/-- The on-chain WETH balance of the pool named by a resolver result, read
off the world. -/
def resultWethBal (w : LiqWorld) (r : LiquidityResult) : Nat :=
  if r.dex = "Uniswap V2" then (w.v2WethBal.getD 0)
  else if r.dex = "Aerodrome" then (w.aeroWethBal.getD 0)
  else if r.dex = "Uniswap V3" then w.v3WethBal (r.fee.getD 0)
  else 0

/-! ### Trade executor (`executeBuy`, `executeSell`) -/

/-- External actions performed by the executor, in order: provider fee
data, token metadata reads, the allowance read and approval transaction
of `ensureApproval`, the native-balance read, the router quote
(`getAmountsOut`, recording the input amount), the gas-estimation
simulation, and the swap broadcast (recording input amount, minimum
output and gas limit). -/
inductive Action where
  | readGasData
  | readDecimals
  | readBalanceOf
  | readAllowance
  | sendApprove
  | readEthBalance
  | quoteCall (amountIn : Nat)
  | gasEstimateCall
  | sendSwap (amountIn amountOutMin gasLimit : Nat)
deriving DecidableEq, Repr

/-- Terminal errors thrown by the executor: "No token balance to sell",
"Insufficient ETH for gas", and the zero-quote "No liquidity" / "Zero
liquidity" errors. -/
inductive TradeError where
  | noTokenBalance
  | insufficientGas
  | noLiquidity
deriving DecidableEq, Repr

/-- The broadcast swap transaction, keeping the fields the claims are
about. -/
structure SwapTx where
  dex : String
  amountIn : Nat
  amountOutMin : Nat
  gasLimit : Nat
deriving DecidableEq, Repr

/-- `estimateGasWithBuffer` of src/lib/trading: the simulated estimate
plus a 30 percent buffer in `BigInt` arithmetic, or the fixed 300000
fallback when simulation throws (`none`). -/
def estimateGasWithBuffer (estimated : Option Nat) : Nat :=
  match estimated with
  | some e => e * 130 / 100
  | none => 300000

/-- The minimum-output floor computed from a quoted output, as written in
all four quoting branches of src/lib/trading:
`(amounts[1] * BigInt(100 - slippage)) / 100n`. -/
def minOutFloor (quoted : Nat) (slippage : Nat) : Nat :=
  quoted * (100 - slippage) / 100

/-- World of a buy: the route (`dex` string as dispatched on by the
source), the parsed input amount in wei, the slippage percentage, what
the router's `getAmountsOut` would return for `amounts[1]` (`none` when
the call throws), and what the gas simulation would return (`none` when
it throws). -/
structure BuyWorld where
  dex : String
  amountInWei : Nat
  slippage : Nat
  quote : Option Nat
  gasEstimate : Option Nat

/-- World of a sell: additionally the token decimals, the wallet's token
balance and requested amount in token units (`amountReq` is the parsed
`parseUnits(amount, decimals)` value), the current allowance for the
router, and the wallet's native balance in wei. -/
structure SellWorld where
  dex : String
  amountReq : Nat
  slippage : Nat
  quote : Option Nat
  gasEstimate : Option Nat
  actualBalance : Nat
  allowance : Nat
  ethBalance : Nat

/-- The quoting-and-broadcast tail shared verbatim by the Aerodrome and
Uniswap V2 branches of the source: quote, throw on a zero quote, swallow
a thrown quote (leaving a zero floor), then estimate gas and broadcast. -/
def quotedSwapTail (dex : String) (amountIn : Nat) (slippage : Nat)
    (quote : Option Nat) (gasEstimate : Option Nat) :
    List Action × Except TradeError SwapTx :=
  match quote with
  | some 0 => ([Action.quoteCall amountIn], Except.error TradeError.noLiquidity)
  | some q =>
    ([Action.quoteCall amountIn, Action.gasEstimateCall,
      Action.sendSwap amountIn (minOutFloor q slippage) (estimateGasWithBuffer gasEstimate)],
     Except.ok ⟨dex, amountIn, minOutFloor q slippage, estimateGasWithBuffer gasEstimate⟩)
  | none =>
    ([Action.quoteCall amountIn, Action.gasEstimateCall,
      Action.sendSwap amountIn 0 (estimateGasWithBuffer gasEstimate)],
     Except.ok ⟨dex, amountIn, 0, estimateGasWithBuffer gasEstimate⟩)

/-- The Uniswap V3 broadcast tail: no quote, `amountOutMinimum`
hard-coded to zero, gas estimation, broadcast. -/
def v3SwapTail (dex : String) (amountIn : Nat) (gasEstimate : Option Nat) :
    List Action × Except TradeError SwapTx :=
  ([Action.gasEstimateCall,
    Action.sendSwap amountIn 0 (estimateGasWithBuffer gasEstimate)],
   Except.ok ⟨dex, amountIn, 0, estimateGasWithBuffer gasEstimate⟩)

/-- `executeBuy` of src/lib/trading: fee data first, then the
route-dispatched swap construction ("Uniswap V3", then "Aerodrome", any
other string falling back to Uniswap V2). -/
def executeBuy (w : BuyWorld) : List Action × Except TradeError SwapTx :=
  let tail :=
    if w.dex = "Uniswap V3" then v3SwapTail w.dex w.amountInWei w.gasEstimate
    else quotedSwapTail w.dex w.amountInWei w.slippage w.quote w.gasEstimate
  (Action.readGasData :: tail.1, tail.2)

/-- `ensureApproval` of src/lib/tokens as performed inside `executeSell`:
read the allowance, and submit a `MaxUint256` approval when it is below
`MaxUint256 / 2`. -/
def ensureApprovalActions (allowance : Nat) : List Action :=
  Action.readAllowance ::
    (if allowance < maxUint256 / 2 then [Action.sendApprove] else [])

/-- `executeSell` of src/lib/trading, in source order: fee data; token
decimals and balance reads; clamp of the requested amount to the actual
balance; throw "No token balance to sell" on a zero clamped amount;
`ensureApproval`; native-balance read and the minimum-gas-reserve check;
then the route-dispatched swap construction. -/
def executeSell (w : SellWorld) : List Action × Except TradeError SwapTx :=
  let t0 := [Action.readGasData, Action.readDecimals, Action.readBalanceOf]
  let amountInUnits := min w.amountReq w.actualBalance
  if amountInUnits = 0 then (t0, Except.error TradeError.noTokenBalance)
  else
    let t1 := t0 ++ ensureApprovalActions w.allowance ++ [Action.readEthBalance]
    if w.ethBalance < minGasNeeded then (t1, Except.error TradeError.insufficientGas)
    else
      let tail :=
        if w.dex = "Uniswap V3" then v3SwapTail w.dex amountInUnits w.gasEstimate
        else quotedSwapTail w.dex amountInUnits w.slippage w.quote w.gasEstimate
      (t1 ++ tail.1, tail.2)

/-! ### Key custody (src/lib/wallet)

Strings are embedded as their byte sequences (`List Nat`): the
TextEncoder / TextDecoder transport is a bijection between strings and
their UTF-8 encodings, and the base64 storage encoding (`btoa` / `atob`,
likewise a bijection on byte strings) is elided, so an encrypted blob is
the raw byte sequence `salt ++ iv ++ ciphertext` built by `encryptKey`.
The WebCrypto primitives are idealized: PBKDF2 key derivation is an
injective pairing of password and salt, and AES-GCM is an authenticated
cipher whose ciphertext carries a tag binding the key and nonce, which
decryption verifies (tag mismatch fails, as the authenticated cipher
guarantees up to forgery probability). -/

/-- `deriveKey`: PBKDF2(SHA-256, 100000 iterations) over password and
salt, idealized as an injective pairing. -/
def deriveKey (password salt : List Nat) : Nat :=
  Nat.pair (Encodable.encode password) (Encodable.encode salt)

/-- Idealized `crypto.subtle.encrypt` with AES-GCM: the ciphertext is the
plaintext together with an authentication tag binding key and nonce. -/
def aeadSeal (key : Nat) (iv plain : List Nat) : List Nat :=
  Nat.pair key (Encodable.encode iv) :: plain

/-- Idealized `crypto.subtle.decrypt` with AES-GCM: verify the tag
against the supplied key and nonce; fail (`none`) on mismatch or a
malformed ciphertext. -/
def aeadOpen (key : Nat) (iv ct : List Nat) : Option (List Nat) :=
  match ct with
  | [] => none
  | t :: rest => if t = Nat.pair key (Encodable.encode iv) then some rest else none

/-- `encryptKey` of src/lib/wallet: derive the symmetric key from the
password and the freshly drawn 16-byte salt, seal the private key under
the freshly drawn 12-byte nonce, and store `salt ++ iv ++ ciphertext`.
The two random draws of `crypto.getRandomValues` are the `salt` and `iv`
arguments; the function uses them and nothing else as salt and nonce. -/
def encryptKey (privateKey password salt iv : List Nat) : List Nat :=
  salt ++ iv ++ aeadSeal (deriveKey password salt) iv privateKey

/-- `decryptKey` of src/lib/wallet: split the blob at byte offsets 16 and
28, re-derive the key from the password and the embedded salt, and open
the ciphertext; `none` embeds the thrown `OperationError`. -/
def decryptKey (blob password : List Nat) : Option (List Nat) :=
  aeadOpen (deriveKey password (blob.take 16)) ((blob.drop 16).take 12) (blob.drop 28)

/-- One byte of `[0-9a-fA-F]`, by ASCII code. -/
def isHexDigit (b : Nat) : Bool :=
  (48 ≤ b && b ≤ 57) || (97 ≤ b && b ≤ 102) || (65 ≤ b && b ≤ 70)

/-- The private-key format accepted by `connectHotWallet`
(`/^0x[0-9a-fA-F]\x7b64\x7d$/` after an optional `0x` is prepended):
64 hex characters, optionally already prefixed with `0x` (bytes 48,
120). -/
def isValidKeyBytes (k : List Nat) : Bool :=
  (k.length == 64 && k.all isHexDigit) ||
    (k.length == 66 && k.take 2 == [48, 120] && (k.drop 2).all isHexDigit)

/-! ### Native-price cache (`fetchEthPrice` of src/lib/prices) -/

/-- The 30-second cache time-to-live, in milliseconds. -/
def CACHE_TTL : Int := 30000

/-- Result of one `fetchEthPrice` call: the returned price, the cache
cell afterwards, and whether a network read was performed. -/
structure PriceFetchOutcome where
  value : Nat
  cache : Option (Nat × Int)
  didNetworkRead : Bool
deriving DecidableEq, Repr

/-- `fetchEthPrice` of src/lib/prices as a step on the module-level cache
cell: serve the cache when it is younger than `CACHE_TTL`; otherwise
read the oracle (`fetchResult`, `none` when the read throws), caching a
successful answer and falling back to the last cached price, or zero
when none exists, on failure.  The fiat price is treated as an opaque
numeric value. -/
def fetchEthPrice (cache : Option (Nat × Int)) (now : Int)
    (fetchResult : Option Nat) : PriceFetchOutcome :=
  match cache with
  | some c =>
    if now - c.2 < CACHE_TTL then ⟨c.1, some c, false⟩
    else
      match fetchResult with
      | some p => ⟨p, some (p, now), true⟩
      | none => ⟨c.1, some c, true⟩
  | none =>
    match fetchResult with
    | some p => ⟨p, some (p, now), true⟩
    | none => ⟨0, none, true⟩

/-! ### Stored blob and wallet session (src/lib/wallet, useWallet hook) -/

/-- The single well-known localStorage key. -/
def STORAGE_KEY : String := "plt_encrypted_wallet"

/-- Browser localStorage, as a partial map from keys to values. -/
def Storage : Type := String → Option String

/-- `saveEncryptedKey`: `localStorage.setItem(STORAGE_KEY, encrypted)`. -/
def saveEncryptedKey (s : Storage) (encrypted : String) : Storage :=
  fun k => if k = STORAGE_KEY then some encrypted else s k

/-- `loadEncryptedKey`: `localStorage.getItem(STORAGE_KEY)`. -/
def loadEncryptedKey (s : Storage) : Option String := s STORAGE_KEY

/-- `clearStoredKey`: `localStorage.removeItem(STORAGE_KEY)`. -/
def clearStoredKey (s : Storage) : Storage :=
  fun k => if k = STORAGE_KEY then none else s k

/-- `hasStoredKey`: `!!localStorage.getItem(STORAGE_KEY)`. -/
def hasStoredKey (s : Storage) : Bool := (s STORAGE_KEY).isSome

/-- The `WalletState` record of the useWallet hook.  The in-memory
wallet is embedded as the optional signing key it wraps. -/
structure WalletState where
  wallet : Option String
  address : String
  shortAddress : String
  balance : String
  balanceUsd : String
  ethPrice : Nat
  isConnected : Bool
  isLoading : Bool
  hasStored : Bool
deriving DecidableEq, Repr

/-- `disconnect` of the useWallet hook: clear the stored blob and reset
the session state to its disconnected initial value (the previous state
is discarded wholesale). -/
def disconnect (s : Storage) (_st : WalletState) : Storage × WalletState :=
  (clearStoredKey s, ⟨none, "", "", "0.0000", "$0.00", 0, false, false, false⟩)

/-- The `unlock` flow of the useWallet hook up to key recovery: load the
stored blob, failing with "No stored wallet" when absent, then decrypt it
with the supplied password (`decryptWithPassword` abstracts
`decryptKey encrypted password` over the string/byte transport). -/
def unlock (s : Storage) (decryptWithPassword : String → Option String) :
    Except String String :=
  match loadEncryptedKey s with
  | none => Except.error "No stored wallet"
  | some enc =>
    match decryptWithPassword enc with
    | none => Except.error "Unlock failed"
    | some pk => Except.ok pk

/-! ### Helper lemmas about the executor tails -/

theorem v3SwapTail_snd (dex : String) (amountIn : Nat) (gasE : Option Nat) :
    (v3SwapTail dex amountIn gasE).2 =
      Except.ok ⟨dex, amountIn, 0, estimateGasWithBuffer gasE⟩ := rfl

theorem quotedSwapTail_zeroQuote (dex : String) (amountIn slip : Nat) (gasE : Option Nat) :
    quotedSwapTail dex amountIn slip (some 0) gasE =
      ([Action.quoteCall amountIn], Except.error TradeError.noLiquidity) := rfl

theorem quotedSwapTail_ok (dex : String) (amountIn slip : Nat) (quote gasE : Option Nat)
    (tx : SwapTx) (h : (quotedSwapTail dex amountIn slip quote gasE).2 = Except.ok tx) :
    tx.dex = dex ∧ tx.amountIn = amountIn ∧ tx.gasLimit = estimateGasWithBuffer gasE ∧
      ((quote = none ∧ tx.amountOutMin = 0) ∨
        ∃ q, quote = some q ∧ 0 < q ∧ tx.amountOutMin = minOutFloor q slip) := by
  match quote with
  | none =>
    simp only [quotedSwapTail, Except.ok.injEq] at h
    subst h
    simp
  | some 0 =>
    simp [quotedSwapTail] at h
  | some (q + 1) =>
    simp only [quotedSwapTail, Except.ok.injEq] at h
    subst h
    refine ⟨rfl, rfl, rfl, Or.inr ⟨q + 1, rfl, Nat.succ_pos q, rfl⟩⟩

theorem executeBuy_snd (b : BuyWorld) :
    (executeBuy b).2 =
      (if b.dex = "Uniswap V3" then v3SwapTail b.dex b.amountInWei b.gasEstimate
        else quotedSwapTail b.dex b.amountInWei b.slippage b.quote b.gasEstimate).2 := rfl

theorem executeBuy_fst (b : BuyWorld) :
    (executeBuy b).1 = Action.readGasData ::
      (if b.dex = "Uniswap V3" then v3SwapTail b.dex b.amountInWei b.gasEstimate
        else quotedSwapTail b.dex b.amountInWei b.slippage b.quote b.gasEstimate).1 := rfl

theorem executeSell_zeroBalance (w : SellWorld)
    (h : min w.amountReq w.actualBalance = 0) :
    executeSell w = ([Action.readGasData, Action.readDecimals, Action.readBalanceOf],
      Except.error TradeError.noTokenBalance) := by
  simp [executeSell, h]

theorem executeSell_lowGas (w : SellWorld)
    (h1 : ¬ min w.amountReq w.actualBalance = 0)
    (h2 : w.ethBalance < minGasNeeded) :
    executeSell w = ([Action.readGasData, Action.readDecimals, Action.readBalanceOf] ++
      ensureApprovalActions w.allowance ++ [Action.readEthBalance],
      Except.error TradeError.insufficientGas) := by
  simp [executeSell, h1, h2]

theorem executeSell_run (w : SellWorld)
    (h1 : ¬ min w.amountReq w.actualBalance = 0)
    (h2 : ¬ w.ethBalance < minGasNeeded) :
    executeSell w =
      (([Action.readGasData, Action.readDecimals, Action.readBalanceOf] ++
          ensureApprovalActions w.allowance ++ [Action.readEthBalance]) ++
        (if w.dex = "Uniswap V3" then
            v3SwapTail w.dex (min w.amountReq w.actualBalance) w.gasEstimate
          else
            quotedSwapTail w.dex (min w.amountReq w.actualBalance) w.slippage
              w.quote w.gasEstimate).1,
       (if w.dex = "Uniswap V3" then
            v3SwapTail w.dex (min w.amountReq w.actualBalance) w.gasEstimate
          else
            quotedSwapTail w.dex (min w.amountReq w.actualBalance) w.slippage
              w.quote w.gasEstimate).2) := by
  simp [executeSell, h1, h2]

theorem pairHit_spec {pair : Option String} {bal : Option Nat} {p : String}
    (h : pairHit pair bal = some p) :
    pair = some p ∧ p ≠ ZERO_ADDRESS ∧ ∃ b, bal = some b ∧ 0 < b := by
  match pair, bal with
  | none, _ => simp [pairHit] at h
  | some q, none =>
    simp only [pairHit] at h
    by_cases hq : q = ZERO_ADDRESS
    · rw [if_pos hq] at h
      cases h
    · rw [if_neg hq] at h
      cases h
  | some q, some b =>
    simp only [pairHit] at h
    by_cases hq : q = ZERO_ADDRESS
    · rw [if_pos hq] at h
      cases h
    · rw [if_neg hq] at h
      by_cases hb : 0 < b
      · rw [if_pos hb] at h
        injection h with h
        subst h
        exact ⟨rfl, hq, b, rfl, hb⟩
      · rw [if_neg hb] at h
        cases h

theorem v3FirstPool_spec {pools : Nat → Option String} {l : List Nat} {fp : Nat × String}
    (h : v3FirstPool pools l = some fp) :
    pools fp.1 = some fp.2 ∧ fp.2 ≠ ZERO_ADDRESS ∧ fp.1 ∈ l := by
  induction l with
  | nil => simp [v3FirstPool] at h
  | cons fee rest ih =>
    simp only [v3FirstPool] at h
    split at h
    · obtain ⟨a, b, c⟩ := ih h
      exact ⟨a, b, List.mem_cons_of_mem _ c⟩
    · rename_i p hp
      by_cases hz : p = ZERO_ADDRESS
      · rw [if_pos hz] at h
        obtain ⟨a, b, c⟩ := ih h
        exact ⟨a, b, List.mem_cons_of_mem _ c⟩
      · rw [if_neg hz] at h
        injection h with h
        subst h
        exact ⟨hp, hz, List.mem_cons_self _ _⟩

/-- Well-formedness of the on-chain environment: an address returned by
an `eth_call` ABI decode is a 42-character hex string, in particular
non-empty. -/
def liqWorldWf (w : LiqWorld) : Prop :=
  (∀ p, w.v2Pair = some p → p ≠ "") ∧
  (∀ p, w.aeroPair = some p → p ≠ "") ∧
  (∀ fee p, w.v3Pool fee = some p → p ≠ "")

/-! ### Claims -/

/-- Counterexample to claim C1 as stated: the claim's invariant — a
returned route with `hasLiquidity = true` was confirmed to hold a
strictly positive wrapped-native balance — fails on a world where no V2
or Aerodrome pair exists and the 0.3 percent Uniswap V3 pool exists but
holds zero WETH: the resolver returns it with `hasLiquidity = true`
without ever reading its balance. -/
theorem C1_counterexample :
    ¬ (∀ w : LiqWorld, (checkLiquidityFast w).hasLiquidity = true →
        0 < resultWethBal w (checkLiquidityFast w)) := by
  intro h
  have h2 := h ⟨some ZERO_ADDRESS, some 0, none, none,
    fun _ => some "0x1111111111111111111111111111111111111111", fun _ => 0⟩ (by decide)
  exact absurd h2 (by decide)

/-- Claim C1 amended: the resolver probes Uniswap V2, then Aerodrome,
then the Uniswap V3 fee tiers in the order 0.3, 1, 0.05 percent, and
returns the first hit; for Uniswap V2 and Aerodrome a hit requires an
existing pair with a confirmed strictly positive wrapped-native balance
(an existing but empty pair is skipped), while for Uniswap V3 a hit is
mere pool existence, with no balance confirmation.  `hasLiquidity = true`
holds exactly off the `None` route and implies non-empty router and pair
addresses. -/
theorem C1_resolver_amended :
    ∀ w : LiqWorld, liqWorldWf w →
      ((checkLiquidityFast w).hasLiquidity = true ↔ (checkLiquidityFast w).dex ≠ "None") ∧
      ((checkLiquidityFast w).hasLiquidity = true →
        (checkLiquidityFast w).router ≠ "" ∧ (checkLiquidityFast w).pairAddress ≠ "") ∧
      ((checkLiquidityFast w).dex = "Uniswap V2" →
        pairHit w.v2Pair w.v2WethBal = some (checkLiquidityFast w).pairAddress ∧
        0 < resultWethBal w (checkLiquidityFast w)) ∧
      ((checkLiquidityFast w).dex = "Aerodrome" →
        pairHit w.v2Pair w.v2WethBal = none ∧
        pairHit w.aeroPair w.aeroWethBal = some (checkLiquidityFast w).pairAddress ∧
        0 < resultWethBal w (checkLiquidityFast w)) ∧
      ((checkLiquidityFast w).dex = "Uniswap V3" →
        pairHit w.v2Pair w.v2WethBal = none ∧
        pairHit w.aeroPair w.aeroWethBal = none ∧
        ∃ fee, (checkLiquidityFast w).fee = some fee ∧
          v3FirstPool w.v3Pool feeTiers = some (fee, (checkLiquidityFast w).pairAddress)) ∧
      ((checkLiquidityFast w).dex = "None" →
        (checkLiquidityFast w).hasLiquidity = false ∧
        pairHit w.v2Pair w.v2WethBal = none ∧
        pairHit w.aeroPair w.aeroWethBal = none ∧
        v3FirstPool w.v3Pool feeTiers = none) := by
  intro w hwf
  obtain ⟨hwf2, hwfA, hwf3⟩ := hwf
  rcases hv2 : pairHit w.v2Pair w.v2WethBal with _ | p2
  · rcases hA : pairHit w.aeroPair w.aeroWethBal with _ | pA
    · rcases h3 : v3FirstPool w.v3Pool feeTiers with _ | fp
      · have hr : checkLiquidityFast w = ⟨"None", "", "", false, none, none⟩ := by
          simp only [checkLiquidityFast, hv2, hA, h3]
        rw [hr]
        exact ⟨by decide, fun h => absurd h (by decide), fun h => absurd h (by decide),
          fun h => absurd h (by decide), fun h => absurd h (by decide),
          fun _ => ⟨rfl, rfl, rfl, rfl⟩⟩
      · obtain ⟨hp, hz, _⟩ := v3FirstPool_spec h3
        have hr : checkLiquidityFast w =
            ⟨"Uniswap V3", UNISWAP_V3_ROUTER, fp.2, true, some fp.1, none⟩ := by
          simp only [checkLiquidityFast, hv2, hA, h3]
        rw [hr]
        exact ⟨by simp, fun _ => ⟨by simp [UNISWAP_V3_ROUTER], hwf3 fp.1 fp.2 hp⟩,
          fun h => absurd h (by simp), fun h => absurd h (by simp),
          fun _ => ⟨rfl, rfl, fp.1, rfl, congrArg some Prod.mk.eta.symm⟩,
          fun h => absurd h (by simp)⟩
    · obtain ⟨hpA, hzA, bA, hbA, hbA0⟩ := pairHit_spec hA
      have hr : checkLiquidityFast w =
          ⟨"Aerodrome", AERODROME_ROUTER, pA, true, none, none⟩ := by
        simp only [checkLiquidityFast, hv2, hA]
      rw [hr]
      refine ⟨by simp, fun _ => ⟨by simp [AERODROME_ROUTER], hwfA pA hpA⟩,
        fun h => absurd h (by simp), fun _ => ⟨rfl, rfl, ?_⟩,
        fun h => absurd h (by simp), fun h => absurd h (by simp)⟩
      show 0 < Option.getD w.aeroWethBal 0
      rw [hbA]
      exact hbA0
  · obtain ⟨hp2, hz2, b2, hb2, hb20⟩ := pairHit_spec hv2
    have hr : checkLiquidityFast w =
        ⟨"Uniswap V2", UNISWAP_V2_ROUTER, p2, true, none, none⟩ := by
      simp only [checkLiquidityFast, hv2]
    rw [hr]
    refine ⟨by simp, fun _ => ⟨by simp [UNISWAP_V2_ROUTER], hwf2 p2 hp2⟩,
      fun _ => ⟨rfl, ?_⟩,
      fun h => absurd h (by simp), fun h => absurd h (by simp),
      fun h => absurd h (by simp)⟩
    show 0 < Option.getD w.v2WethBal 0
    rw [hb2]
    exact hb20

/-- Witness for C1 amended, on a world where only the Aerodrome pair
exists and holds 9 wei of WETH: the resolver returns the Aerodrome route
with the balance confirmed. -/
theorem C1_resolver_amended_witness :
    (checkLiquidityFast ⟨none, none,
        some "0x2222222222222222222222222222222222222222", some 9,
        fun _ => none, fun _ => 0⟩).dex = "Aerodrome" ∧
      pairHit (none : Option String) (none : Option Nat) = none ∧
      0 < resultWethBal ⟨none, none,
        some "0x2222222222222222222222222222222222222222", some 9,
        fun _ => none, fun _ => 0⟩
        (checkLiquidityFast ⟨none, none,
          some "0x2222222222222222222222222222222222222222", some 9,
          fun _ => none, fun _ => 0⟩) := by
  have hwA : ∀ p : String,
      (some "0x2222222222222222222222222222222222222222" : Option String) = some p →
        p ≠ "" := by
    intro p hp
    injection hp with h2
    subst h2
    decide
  have h := C1_resolver_amended ⟨none, none,
    some "0x2222222222222222222222222222222222222222", some 9,
    fun _ => none, fun _ => 0⟩
    ⟨fun p hp => (nomatch hp), hwA, fun fee p hp => (nomatch hp)⟩
  obtain ⟨hv2, -, h20⟩ := h.2.2.2.1 (by decide)
  exact ⟨by decide, hv2, h20⟩

/-- Counterexample to claim C2 as stated: the minimum-gas-reserve check
is not performed "before any contract call" — on a sell with a positive
token balance, a low allowance and an empty native balance, the executor
submits the approval transaction before it reads the native balance and
throws `InsufficientGas`. -/
theorem C2_counterexample :
    ¬ (∀ w : SellWorld, w.ethBalance < minGasNeeded →
        (executeSell w).2 = Except.error TradeError.insufficientGas ∧
        Action.sendApprove ∉ (executeSell w).1) := by
  intro h
  have h2 := (h ⟨"Uniswap V2", 5, 5, some 10, some 100, 5, 0, 0⟩ (by decide)).2
  exact h2 (by decide)

/-- Claim C2 amended: on a sell whose clamped amount is non-zero, a
native balance below the fixed minimum gas reserve fails the trade with
`InsufficientGas` after the fee-data and token reads and the approval
step, but before any quote, any gas simulation and the swap broadcast. -/
theorem C2_sell_gas_check_amended :
    ∀ w : SellWorld, ¬ min w.amountReq w.actualBalance = 0 →
      w.ethBalance < minGasNeeded →
      (executeSell w).2 = Except.error TradeError.insufficientGas ∧
      (executeSell w).1 =
        [Action.readGasData, Action.readDecimals, Action.readBalanceOf] ++
          ensureApprovalActions w.allowance ++ [Action.readEthBalance] ∧
      (∀ a, Action.quoteCall a ∉ (executeSell w).1) ∧
      Action.gasEstimateCall ∉ (executeSell w).1 ∧
      (∀ a f g, Action.sendSwap a f g ∉ (executeSell w).1) := by
  intro w h1 h2
  rw [executeSell_lowGas w h1 h2]
  refine ⟨rfl, rfl, ?_, ?_, ?_⟩ <;>
    by_cases ha : w.allowance < maxUint256 / 2 <;>
      simp [ensureApprovalActions, ha]

/-- Witness for C2 amended at a concrete sell with a zero native
balance. -/
theorem C2_sell_gas_check_amended_witness :
    (executeSell ⟨"Uniswap V2", 5, 5, some 10, some 100, 5, 0, 0⟩).2 =
        Except.error TradeError.insufficientGas ∧
      Action.gasEstimateCall ∉
        (executeSell ⟨"Uniswap V2", 5, 5, some 10, some 100, 5, 0, 0⟩).1 := by
  have h := C2_sell_gas_check_amended ⟨"Uniswap V2", 5, 5, some 10, some 100, 5, 0, 0⟩
    (by decide) (by decide)
  exact ⟨h.1, h.2.2.2.1⟩

/-- Counterexample to claim C3 as stated: on the Uniswap V3 route the
executor performs no quote at all (and so also cannot fail on a zero
quote) — the buy broadcasts with a hard-coded zero minimum output. -/
theorem C3_counterexample :
    ¬ (∀ b : BuyWorld, (∃ a, Action.quoteCall a ∈ (executeBuy b).1) ∧
        (b.quote = some 0 → (executeBuy b).2 = Except.error TradeError.noLiquidity)) := by
  intro h
  obtain ⟨⟨a, ha⟩, -⟩ := h ⟨"Uniswap V3", 100, 5, some 0, some 100⟩
  simp [executeBuy, v3SwapTail] at ha

/-- Claim C3 amended: on the Aerodrome and Uniswap V2 routes (buy and
sell) the executor quotes the input amount and a quoted output of zero
fails immediately with the no-liquidity error, before any gas simulation
or broadcast; on the Uniswap V3 route no quote is performed and the swap
is always broadcast with a zero minimum-output floor. -/
theorem C3_zero_quote_amended :
    (∀ b : BuyWorld, b.dex ≠ "Uniswap V3" → b.quote = some 0 →
      executeBuy b = ([Action.readGasData, Action.quoteCall b.amountInWei],
        Except.error TradeError.noLiquidity)) ∧
    (∀ b : BuyWorld, b.dex = "Uniswap V3" →
      (∀ a, Action.quoteCall a ∉ (executeBuy b).1) ∧
      (executeBuy b).2 =
        Except.ok ⟨b.dex, b.amountInWei, 0, estimateGasWithBuffer b.gasEstimate⟩) ∧
    (∀ s : SellWorld, s.dex ≠ "Uniswap V3" → s.quote = some 0 →
      ¬ min s.amountReq s.actualBalance = 0 → ¬ s.ethBalance < minGasNeeded →
      (executeSell s).2 = Except.error TradeError.noLiquidity ∧
      (∀ a f g, Action.sendSwap a f g ∉ (executeSell s).1)) ∧
    (∀ s : SellWorld, s.dex = "Uniswap V3" →
      ¬ min s.amountReq s.actualBalance = 0 → ¬ s.ethBalance < minGasNeeded →
      (∀ a, Action.quoteCall a ∉ (executeSell s).1) ∧
      (executeSell s).2 = Except.ok ⟨s.dex, min s.amountReq s.actualBalance, 0,
        estimateGasWithBuffer s.gasEstimate⟩) := by
  refine ⟨?_, ?_, ?_, ?_⟩
  · intro b hdex hq
    rw [executeBuy] at *
    rw [if_neg hdex, hq, quotedSwapTail_zeroQuote]
  · intro b hdex
    constructor
    · intro a
      rw [executeBuy_fst, if_pos hdex]
      simp [v3SwapTail]
    · rw [executeBuy_snd, if_pos hdex, v3SwapTail_snd]
  · intro s hdex hq h1 h2
    rw [executeSell_run s h1 h2]
    rw [if_neg hdex, hq, quotedSwapTail_zeroQuote]
    refine ⟨rfl, ?_⟩
    intro a f g
    by_cases ha : s.allowance < maxUint256 / 2 <;>
      simp [ensureApprovalActions, ha]
  · intro s hdex h1 h2
    rw [executeSell_run s h1 h2, if_pos hdex]
    constructor
    · intro a
      by_cases ha : s.allowance < maxUint256 / 2 <;>
        simp [ensureApprovalActions, ha, v3SwapTail]
    · rw [v3SwapTail_snd]

/-- Witness for C3 amended: a zero Aerodrome quote on a buy errors; a
Uniswap V3 sell with valid balances broadcasts with floor 0 and no
quote. -/
theorem C3_zero_quote_amended_witness :
    executeBuy ⟨"Aerodrome", 100, 5, some 0, some 100⟩ =
        ([Action.readGasData, Action.quoteCall 100],
          Except.error TradeError.noLiquidity) ∧
      (executeSell ⟨"Uniswap V3", 5, 5, some 10, some 100, 9, 0, 10 ^ 12⟩).2 =
        Except.ok ⟨"Uniswap V3", 5, 0, 130⟩ := by
  refine ⟨C3_zero_quote_amended.1 ⟨"Aerodrome", 100, 5, some 0, some 100⟩
    (by decide) rfl, ?_⟩
  exact (C3_zero_quote_amended.2.2.2 ⟨"Uniswap V3", 5, 5, some 10, some 100, 9, 0, 10 ^ 12⟩
    rfl (by decide) (by decide)).2

/-- Counterexample to claim C4 as stated: a sell with a zero token
balance does fail with the explicit error, but not before the fee-data
read and the two token reads needed to observe the balance — the action
trace is not empty, so "performs no network call" is false. -/
theorem C4_counterexample :
    ¬ (∀ w : SellWorld, w.actualBalance = 0 →
        (executeSell w).2 = Except.error TradeError.noTokenBalance ∧
        (executeSell w).1 = []) := by
  intro h
  have h2 := (h ⟨"Uniswap V2", 5, 5, some 10, some 100, 0, 0, 10 ^ 12⟩ rfl).2
  exact absurd h2 (by decide)

/-- Claim C4 amended: a requested sell amount exceeding the balance is
silently clamped to exactly the balance (every broadcast swap and every
successful result carries the clamped amount), and a zero balance fails
with the explicit no-token-balance error before any approval, quote,
simulation or broadcast — the only calls performed are the fee-data read
and the decimals and balance reads that observe the zero balance. -/
theorem C4_sell_clamp_amended :
    ∀ w : SellWorld,
      (∀ a f g, Action.sendSwap a f g ∈ (executeSell w).1 →
        a = min w.amountReq w.actualBalance) ∧
      (∀ tx, (executeSell w).2 = Except.ok tx →
        tx.amountIn = min w.amountReq w.actualBalance) ∧
      (w.actualBalance = 0 →
        executeSell w =
          ([Action.readGasData, Action.readDecimals, Action.readBalanceOf],
            Except.error TradeError.noTokenBalance)) := by
  intro w
  refine ⟨?_, ?_, ?_⟩
  · intro a f g hmem
    by_cases h1 : min w.amountReq w.actualBalance = 0
    · rw [executeSell_zeroBalance w h1] at hmem
      simp at hmem
    · by_cases h2 : w.ethBalance < minGasNeeded
      · rw [executeSell_lowGas w h1 h2] at hmem
        by_cases ha : w.allowance < maxUint256 / 2 <;>
          simp [ensureApprovalActions, ha] at hmem
      · rw [executeSell_run w h1 h2] at hmem
        by_cases hdex : w.dex = "Uniswap V3"
        · rw [if_pos hdex] at hmem
          by_cases ha : w.allowance < maxUint256 / 2 <;>
            simp [ensureApprovalActions, ha, v3SwapTail] at hmem <;>
              exact hmem.1
        · rw [if_neg hdex] at hmem
          rcases hq : w.quote with _ | q
          · rw [hq] at hmem
            by_cases ha : w.allowance < maxUint256 / 2 <;>
              simp [ensureApprovalActions, ha, quotedSwapTail] at hmem <;>
                exact hmem.1
          · rcases q with _ | q
            · rw [hq, quotedSwapTail_zeroQuote] at hmem
              by_cases ha : w.allowance < maxUint256 / 2 <;>
                simp [ensureApprovalActions, ha] at hmem
            · rw [hq] at hmem
              by_cases ha : w.allowance < maxUint256 / 2 <;>
                simp [ensureApprovalActions, ha, quotedSwapTail] at hmem <;>
                  exact hmem.1
  · intro tx htx
    by_cases h1 : min w.amountReq w.actualBalance = 0
    · rw [executeSell_zeroBalance w h1] at htx
      cases htx
    · by_cases h2 : w.ethBalance < minGasNeeded
      · rw [executeSell_lowGas w h1 h2] at htx
        cases htx
      · rw [executeSell_run w h1 h2] at htx
        by_cases hdex : w.dex = "Uniswap V3"
        · rw [if_pos hdex, v3SwapTail_snd] at htx
          cases htx
          rfl
        · rw [if_neg hdex] at htx
          exact (quotedSwapTail_ok _ _ _ _ _ _ htx).2.1
  · intro h0
    refine executeSell_zeroBalance w ?_
    rw [h0]
    exact Nat.min_zero w.amountReq

/-- Witness for C4 amended: a request of 10 against a balance of 4 is
executed as exactly 4; a zero balance yields the explicit error after
only the three reads. -/
theorem C4_sell_clamp_amended_witness :
    (executeSell ⟨"Uniswap V2", 10, 5, some 50, some 100, 4, maxUint256, 10 ^ 12⟩).2 =
        Except.ok ⟨"Uniswap V2", 4, 47, 130⟩ ∧
      (4 : Nat) = min 10 4 ∧
      executeSell ⟨"Uniswap V2", 5, 5, some 10, some 100, 0, 0, 10 ^ 12⟩ =
        ([Action.readGasData, Action.readDecimals, Action.readBalanceOf],
          Except.error TradeError.noTokenBalance) := by
  have he : (executeSell ⟨"Uniswap V2", 10, 5, some 50, some 100, 4, maxUint256,
      10 ^ 12⟩).2 = Except.ok ⟨"Uniswap V2", 4, 47, 130⟩ := rfl
  refine ⟨he, ?_, (C4_sell_clamp_amended _).2.2 rfl⟩
  exact (C4_sell_clamp_amended ⟨"Uniswap V2", 10, 5, some 50, some 100, 4, maxUint256,
    10 ^ 12⟩).2.1 ⟨"Uniswap V2", 4, 47, 130⟩ he

/-- Claim C5: whenever a non-zero output is quoted (the quoting branches,
i.e. every route but the Uniswap V3 one, which never quotes), the
broadcast minimum output equals `quotedOutput * (100 - slippagePercent) / 100`
in integer arithmetic, on both the buy and the sell path; in particular a
quote of 1000000 at 15 percent slippage yields a floor of exactly
850000. -/
theorem C5_min_output_floor :
    (∀ b : BuyWorld, b.dex ≠ "Uniswap V3" → ∀ q, b.quote = some q → 0 < q →
      ∀ tx, (executeBuy b).2 = Except.ok tx →
        tx.amountOutMin = q * (100 - b.slippage) / 100) ∧
    (∀ s : SellWorld, s.dex ≠ "Uniswap V3" → ∀ q, s.quote = some q → 0 < q →
      ∀ tx, (executeSell s).2 = Except.ok tx →
        tx.amountOutMin = q * (100 - s.slippage) / 100) ∧
    minOutFloor 1000000 15 = 850000 := by
  refine ⟨?_, ?_, by decide⟩
  · intro b hdex q hq hq0 tx htx
    rw [executeBuy_snd, if_neg hdex] at htx
    rcases (quotedSwapTail_ok _ _ _ _ _ _ htx).2.2.2 with ⟨hn, _⟩ | ⟨q2, hq2, _, hfloor⟩
    · rw [hq] at hn; cases hn
    · rw [hq] at hq2
      cases hq2
      exact hfloor
  · intro s hdex q hq hq0 tx htx
    by_cases h1 : min s.amountReq s.actualBalance = 0
    · rw [executeSell_zeroBalance s h1] at htx; cases htx
    · by_cases h2 : s.ethBalance < minGasNeeded
      · rw [executeSell_lowGas s h1 h2] at htx; cases htx
      · rw [executeSell_run s h1 h2] at htx
        simp only [if_neg hdex] at htx
        rcases (quotedSwapTail_ok _ _ _ _ _ _ htx).2.2.2 with ⟨hn, _⟩ | ⟨q2, hq2, _, hfloor⟩
        · rw [hq] at hn; cases hn
        · rw [hq] at hq2
          cases hq2
          exact hfloor

/-- Witness for C5 at a concrete buy: route "Uniswap V2", quote 1000000,
slippage 15 percent, floor exactly 850000. -/
theorem C5_min_output_floor_witness :
    (executeBuy ⟨"Uniswap V2", 7, 15, some 1000000, some 100⟩).2 =
        Except.ok ⟨"Uniswap V2", 7, 850000, 130⟩ ∧
      (850000 : Nat) = 1000000 * (100 - 15) / 100 := by
  have h := C5_min_output_floor.1 ⟨"Uniswap V2", 7, 15, some 1000000, some 100⟩
    (by decide) 1000000 rfl (by decide) ⟨"Uniswap V2", 7, 850000, 130⟩ rfl
  exact ⟨rfl, h⟩

/-- Claim C7: every broadcast swap carries a gas limit equal to the
simulated estimate plus a 30 percent buffer (`estimated * 130 / 100` in
integer arithmetic) when simulation succeeds, and the fixed 300000
fallback when simulation fails, on both paths; a failed simulation never
fails the trade by itself. -/
theorem C7_gas_buffer :
    (∀ b : BuyWorld, ∀ tx, (executeBuy b).2 = Except.ok tx →
        tx.gasLimit = estimateGasWithBuffer b.gasEstimate) ∧
    (∀ s : SellWorld, ∀ tx, (executeSell s).2 = Except.ok tx →
        tx.gasLimit = estimateGasWithBuffer s.gasEstimate) ∧
    (∀ e, estimateGasWithBuffer (some e) = e * 130 / 100) ∧
    estimateGasWithBuffer none = 300000 := by
  refine ⟨?_, ?_, fun e => rfl, rfl⟩
  · intro b tx htx
    rw [executeBuy_snd] at htx
    by_cases hdex : b.dex = "Uniswap V3"
    · rw [if_pos hdex, v3SwapTail_snd] at htx
      cases htx
      rfl
    · rw [if_neg hdex] at htx
      exact (quotedSwapTail_ok _ _ _ _ _ _ htx).2.2.1
  · intro s tx htx
    by_cases h1 : min s.amountReq s.actualBalance = 0
    · rw [executeSell_zeroBalance s h1] at htx; cases htx
    · by_cases h2 : s.ethBalance < minGasNeeded
      · rw [executeSell_lowGas s h1 h2] at htx; cases htx
      · rw [executeSell_run s h1 h2] at htx
        by_cases hdex : s.dex = "Uniswap V3"
        · rw [if_pos hdex, v3SwapTail_snd] at htx
          cases htx
          rfl
        · rw [if_neg hdex] at htx
          exact (quotedSwapTail_ok _ _ _ _ _ _ htx).2.2.1

/-- Witness for C7: a successful simulation of 100 units yields a limit
of 130; a failed simulation still broadcasts, with the 300000 fallback. -/
theorem C7_gas_buffer_witness :
    (executeBuy ⟨"Uniswap V2", 7, 15, some 1000000, some 100⟩).2 =
        Except.ok ⟨"Uniswap V2", 7, 850000, 130⟩ ∧
      (130 : Nat) = estimateGasWithBuffer (some 100) ∧
      (executeBuy ⟨"Uniswap V2", 7, 15, some 1000000, none⟩).2 =
        Except.ok ⟨"Uniswap V2", 7, 850000, 300000⟩ ∧
      (300000 : Nat) = estimateGasWithBuffer none := by
  refine ⟨rfl, ?_, rfl, ?_⟩
  · exact (C7_gas_buffer.1 ⟨"Uniswap V2", 7, 15, some 1000000, some 100⟩
      ⟨"Uniswap V2", 7, 850000, 130⟩ rfl).symm
  · exact (C7_gas_buffer.1 ⟨"Uniswap V2", 7, 15, some 1000000, none⟩
      ⟨"Uniswap V2", 7, 850000, 300000⟩ rfl).symm

/-- Claim C10: at slippage exactly 100 percent, a strictly positive quote
yields a minimum-output floor of exactly zero and the trade proceeds to
broadcast with that zero floor; the zero-floor rejection fires only when
the quote itself is zero. -/
theorem C10_full_slippage :
    (∀ q, 0 < q → minOutFloor q 100 = 0) ∧
    (∀ b : BuyWorld, b.dex ≠ "Uniswap V3" → b.slippage = 100 →
      ∀ q, b.quote = some q → 0 < q →
        (executeBuy b).2 =
          Except.ok ⟨b.dex, b.amountInWei, 0, estimateGasWithBuffer b.gasEstimate⟩) ∧
    (∀ b : BuyWorld, b.dex ≠ "Uniswap V3" → b.quote = some 0 →
      (executeBuy b).2 = Except.error TradeError.noLiquidity) := by
  refine ⟨?_, ?_, ?_⟩
  · intro q _
    simp [minOutFloor]
  · intro b hdex hs q hq hq0
    rw [executeBuy_snd, if_neg hdex]
    match q, hq0 with
    | q + 1, _ =>
      rw [hq]
      simp [quotedSwapTail, minOutFloor, hs]
  · intro b hdex hq
    rw [executeBuy_snd, if_neg hdex, hq, quotedSwapTail_zeroQuote]

/-- Witness for C10: quote 1000000 at 100 percent slippage broadcasts
with floor 0; quote 0 is rejected. -/
theorem C10_full_slippage_witness :
    (executeBuy ⟨"Uniswap V2", 7, 100, some 1000000, some 100⟩).2 =
        Except.ok ⟨"Uniswap V2", 7, 0, estimateGasWithBuffer (some 100)⟩ ∧
      (executeBuy ⟨"Uniswap V2", 7, 100, some 0, some 100⟩).2 =
        Except.error TradeError.noLiquidity := by
  exact ⟨C10_full_slippage.2.1 ⟨"Uniswap V2", 7, 100, some 1000000, some 100⟩
      (by decide) rfl 1000000 rfl (by decide),
    C10_full_slippage.2.2 ⟨"Uniswap V2", 7, 100, some 0, some 100⟩ (by decide) rfl⟩

/-- Claim C8: within the 30-second time-to-live, `fetchEthPrice` serves
the identical cached value without a network read (and does so for any
number of calls, the cache cell being left unchanged); past the window it
performs a fresh read; and a failed fresh read returns the last good
cached value, or zero only when nothing was ever cached. -/
theorem C8_price_cache :
    (∀ p ts now fr, now - ts < CACHE_TTL →
      fetchEthPrice (some (p, ts)) now fr = ⟨p, some (p, ts), false⟩) ∧
    (∀ p ts now1 now2 fr1 fr2, now1 - ts < CACHE_TTL → now2 - ts < CACHE_TTL →
      fetchEthPrice (fetchEthPrice (some (p, ts)) now1 fr1).cache now2 fr2 =
        ⟨p, some (p, ts), false⟩) ∧
    (∀ p ts now fr, ¬ now - ts < CACHE_TTL →
      (fetchEthPrice (some (p, ts)) now fr).didNetworkRead = true) ∧
    (∀ c now, (fetchEthPrice c now (some 0)).didNetworkRead = true →
      (fetchEthPrice c now (some 0)).cache = some (0, now)) ∧
    (∀ p ts now, ¬ now - ts < CACHE_TTL →
      fetchEthPrice (some (p, ts)) now none = ⟨p, some (p, ts), true⟩) ∧
    (∀ now, fetchEthPrice none now none = ⟨0, none, true⟩) ∧
    (∀ now p, fetchEthPrice none now (some p) = ⟨p, some (p, now), true⟩) := by
  refine ⟨?_, ?_, ?_, ?_, ?_, fun now => rfl, fun now p => rfl⟩
  · intro p ts now fr h
    simp [fetchEthPrice, h]
  · intro p ts now1 now2 fr1 fr2 h1 h2
    simp [fetchEthPrice, h1, h2]
  · intro p ts now fr h
    cases fr <;> simp [fetchEthPrice, h]
  · intro c now h
    match c with
    | none => rfl
    | some c =>
      by_cases hc : now - c.2 < CACHE_TTL
      · simp [fetchEthPrice, hc] at h
      · simp [fetchEthPrice, hc]
  · intro p ts now h
    simp [fetchEthPrice, h]

/-- Witness for C8 at concrete times: a fetch at time 0 caches price 5;
calls at 10000 and 20000 serve 5 without reading; a failed refresh at
40000 still returns 5; a failed read with an empty cache returns 0. -/
theorem C8_price_cache_witness :
    fetchEthPrice (some (5, 0)) 10000 (some 7) = ⟨5, some (5, 0), false⟩ ∧
      fetchEthPrice (fetchEthPrice (some (5, 0)) 10000 (some 7)).cache 20000 none =
        ⟨5, some (5, 0), false⟩ ∧
      (fetchEthPrice (some (5, 0)) 40000 none).didNetworkRead = true ∧
      fetchEthPrice (some (5, 0)) 40000 none = ⟨5, some (5, 0), true⟩ ∧
      fetchEthPrice none 40000 none = ⟨0, none, true⟩ := by
  refine ⟨C8_price_cache.1 5 0 10000 (some 7) (by decide),
    C8_price_cache.2.1 5 0 10000 20000 (some 7) none (by decide) (by decide),
    C8_price_cache.2.2.1 5 0 40000 none (by decide),
    C8_price_cache.2.2.2.2.1 5 0 40000 (by decide),
    C8_price_cache.2.2.2.2.2.1 40000⟩

/-- Claim C9: `disconnect` removes the persisted blob (the stored-wallet
check turns false, the load returns nothing, and the unlock flow fails
with "No stored wallet" whatever the password does), clears the in-memory
session, touches no other storage key, and only a reconnect that saves a
fresh blob makes the stored-wallet check true again. -/
theorem C9_disconnect :
    ∀ (s : Storage) (st : WalletState),
      hasStoredKey (disconnect s st).1 = false ∧
      loadEncryptedKey (disconnect s st).1 = none ∧
      (∀ dec, unlock (disconnect s st).1 dec = Except.error "No stored wallet") ∧
      (∀ k, k ≠ STORAGE_KEY → (disconnect s st).1 k = s k) ∧
      (disconnect s st).2.wallet = none ∧
      (disconnect s st).2.isConnected = false ∧
      (disconnect s st).2.hasStored = false ∧
      (∀ blob, hasStoredKey (saveEncryptedKey (disconnect s st).1 blob) = true) := by
  intro s st
  refine ⟨rfl, rfl, fun dec => rfl, ?_, rfl, rfl, rfl, fun blob => rfl⟩
  intro k hk
  simp [disconnect, clearStoredKey, hk]

/-- Witness for C9 on a concrete storage holding the blob and one
unrelated key: after disconnect the blob is gone, the unrelated key
survives, and unlock fails. -/
theorem C9_disconnect_witness :
    (let s : Storage := fun k =>
      if k = STORAGE_KEY then some "blob" else if k = "theme" then some "dark" else none
     let st : WalletState := ⟨some "pk", "0xA", "0xA", "1.0", "$1.00", 4000, true, false, true⟩
     hasStoredKey (disconnect s st).1 = false ∧
       (disconnect s st).1 "theme" = s "theme" ∧
       unlock (disconnect s st).1 (fun _ => some "pk") =
         Except.error "No stored wallet") := by
  refine ⟨(C9_disconnect _ _).1, ?_, (C9_disconnect _ _).2.2.1 _⟩
  exact (C9_disconnect _ _).2.2.2.1 "theme" (by decide)

/-- Claim C6: for every valid private key (64 hex characters, with or
without the `0x` marker) and every password, encrypting and then
decrypting with the same password returns the original key exactly;
decrypting with a different password fails and never returns a key; and
each encryption call embeds exactly the 16-byte salt and 12-byte nonce
freshly drawn for that call (so the blob determines the draws and
distinct draws give distinct blobs — the function has no other source of
salt or nonce). -/
theorem C6_encrypt_decrypt :
    ∀ pk pw pw2 salt iv : List Nat,
      isValidKeyBytes pk = true → salt.length = 16 → iv.length = 12 →
      decryptKey (encryptKey pk pw salt iv) pw = some pk ∧
      (pw2 ≠ pw → decryptKey (encryptKey pk pw salt iv) pw2 = none) ∧
      (encryptKey pk pw salt iv).take 16 = salt ∧
      ((encryptKey pk pw salt iv).drop 16).take 12 = iv ∧
      (∀ salt2 iv2 : List Nat, salt2.length = 16 →
        encryptKey pk pw salt2 iv2 = encryptKey pk pw salt iv →
          salt2 = salt ∧ iv2 = iv) := by
  intro pk pw pw2 salt iv hvalid hs hiv
  have htake16 : (encryptKey pk pw salt iv).take 16 = salt := by
    rw [encryptKey, List.append_assoc, ← hs]
    exact List.take_left salt _
  have hdrop16 : (encryptKey pk pw salt iv).drop 16 =
      iv ++ aeadSeal (deriveKey pw salt) iv pk := by
    rw [encryptKey, List.append_assoc, ← hs]
    exact List.drop_left salt _
  have htakeiv : ((encryptKey pk pw salt iv).drop 16).take 12 = iv := by
    rw [hdrop16, ← hiv]
    exact List.take_left iv _
  have hdrop28 : (encryptKey pk pw salt iv).drop 28 =
      aeadSeal (deriveKey pw salt) iv pk := by
    rw [encryptKey]
    have h28 : (28 : Nat) = (salt ++ iv).length := by
      rw [List.length_append, hs, hiv]
    rw [h28]
    exact List.drop_left _ _
  refine ⟨?_, ?_, htake16, htakeiv, ?_⟩
  · rw [decryptKey, htake16, htakeiv, hdrop28]
    simp [aeadOpen, aeadSeal]
  · intro hne
    rw [decryptKey, htake16, htakeiv, hdrop28]
    simp only [aeadOpen, aeadSeal]
    rw [if_neg]
    intro hEq
    rw [Nat.pair_eq_pair] at hEq
    have hkeys : deriveKey pw salt = deriveKey pw2 salt := hEq.1
    rw [deriveKey, deriveKey, Nat.pair_eq_pair] at hkeys
    exact hne (Encodable.encode_injective hkeys.1).symm
  · intro salt2 iv2 hs2 hEq
    have t2 : (encryptKey pk pw salt2 iv2).take 16 = salt2 := by
      rw [encryptKey, List.append_assoc, ← hs2]
      exact List.take_left salt2 _
    have hsalt : salt2 = salt := by rw [← t2, hEq, htake16]
    refine ⟨hsalt, ?_⟩
    have d2 : (encryptKey pk pw salt2 iv2).drop 16 =
        iv2 ++ aeadSeal (deriveKey pw salt2) iv2 pk := by
      rw [encryptKey, List.append_assoc, ← hs2]
      exact List.drop_left salt2 _
    have hiv2len : iv2.length = 12 := by
      have := congrArg List.length hEq
      rw [encryptKey, encryptKey, List.length_append, List.length_append,
        List.length_append, List.length_append, aeadSeal, aeadSeal,
        List.length_cons, List.length_cons, hs, hs2] at this
      omega
    have t3 : ((encryptKey pk pw salt2 iv2).drop 16).take 12 = iv2 := by
      rw [d2, ← hiv2len]
      exact List.take_left iv2 _
    rw [← t3, hEq, htakeiv]

/-- Witness for C6 on a concrete 64-hex key (64 times the byte of the
letter a), password bytes [3], wrong password bytes [4], and fixed RNG
draws. -/
theorem C6_encrypt_decrypt_witness :
    decryptKey (encryptKey (List.replicate 64 97) [3]
        (List.replicate 16 1) (List.replicate 12 2)) [3] =
          some (List.replicate 64 97) ∧
      decryptKey (encryptKey (List.replicate 64 97) [3]
        (List.replicate 16 1) (List.replicate 12 2)) [4] = none := by
  have h := C6_encrypt_decrypt (List.replicate 64 97) [3] [4]
    (List.replicate 16 1) (List.replicate 12 2) (by decide) (by decide) (by decide)
  exact ⟨h.1, h.2.1 (by decide)⟩

end Engine
